import Mathlib

/-!
Verification development for `custom_components/inim_cloud/alarm_control_panel.py`
(the ha-inim_cloud repository).

The module is a Home Assistant alarm-control-panel adapter.  We give a shallow
embedding of its data model and of the three kinds of operations the claims are
about:

* the role-mapping loop of `InimAlarmControlPanel.__init__` (scenario name →
  role classification),
* the state read `alarm_state` together with `_find_device_in_coordinator`,
* the three command handlers `async_alarm_disarm`, `async_alarm_arm_home`,
  `async_alarm_arm_away`, which are textually identical up to the role field
  and the log-message strings.

Python scalar values relevant to the code (device ids, scenario ids, the
`active_scenario` field) are embedded as `PyValue` (None, int, str; per the
data contract of the module these fields hold opaque scalar identifiers).
Python dictionaries for device and scenario records are embedded as structures
whose fields are `Option`-valued: `Option.none` models an absent key, so that
`dict.get` and dict truthiness (`if not device:`) can be modelled faithfully.
The external API client and the refresh coordinator are modelled by an
environment `Env` choosing, for each call, whether that call raises; a command
handler then produces a trace of observable events (API activation calls,
refresh requests, log records) plus a flag telling whether an exception
propagated out of the handler.
-/

namespace InimCloud

/-- Embedding of the Python scalar values that flow through the adapter:
`None`, integers and strings.  Device ids, scenario ids and the
`active_scenario` field are opaque scalars per the module's data contract. -/
inductive PyValue where
  | none : PyValue
  | int : Int → PyValue
  | str : String → PyValue
deriving DecidableEq, Repr

/-- Python `str()` on the embedded scalar values (`str(3) = "3"`,
`str(-2) = "-2"`, strings unchanged, `str(None) = "None"`). -/
def pyStr : PyValue → String
  | PyValue.none => "None"
  | PyValue.int n => toString n
  | PyValue.str s => s

/-- Python `str.lower()`, modelled character-wise with `Char.toLower`.
`Char.toLower` lowers exactly the ASCII uppercase letters; Python's `lower`
agrees with it on every string whose lowering could equal one of the seven
ASCII vocabulary words the adapter compares against (the only non-ASCII
uppercase character Python lowers into the ASCII range is the Kelvin sign,
which no vocabulary word contains). -/
def pyLower (s : String) : String :=
  ⟨s.data.map Char.toLower⟩

/-- A scenario record `{id, name}` as consumed by the adapter.  `Option.none`
in a field models the key being absent from the dictionary; `scenario.get("id")`
is then `id.getD PyValue.none` and `scenario.get("name", "")` is
`name.getD ""` (names are free text strings per the data contract). -/
structure Scenario where
  id : Option PyValue
  name : Option String
deriving DecidableEq, Repr

/-- A device record `{id, name, scenarios, active_scenario}` as consumed by
the adapter; `Option.none` models an absent key.  Per the module's data
contract no other keys are read, so a device dictionary is empty (falsy in
Python) exactly when all four fields are absent. -/
structure Device where
  id : Option PyValue
  name : Option String
  scenarios : Option (List Scenario)
  active_scenario : Option PyValue
deriving DecidableEq, Repr

/-- Python truthiness of a device dictionary (`if not device:`): a dict is
truthy iff it is non-empty, i.e. at least one key is present. -/
def Device.truthy (d : Device) : Bool :=
  d.id.isSome || d.name.isSome || d.scenarios.isSome || d.active_scenario.isSome

/-- The value of `device.get("id")`: the stored id, or `None` when the key is
absent. -/
def deviceGetId (d : Device) : PyValue :=
  d.id.getD PyValue.none

/-- The three panel states the adapter ever produces
(`AlarmControlPanelState` members used by the module). -/
inductive AlarmControlPanelState where
  | armed_away : AlarmControlPanelState
  | disarmed : AlarmControlPanelState
  | armed_home : AlarmControlPanelState
deriving DecidableEq, Repr

/-- The module-level literal table `SCENARIO_STATE_MAP`
(`"0" → ARMED_AWAY`, `"1" → DISARMED`, `"2" → ARMED_HOME`); `.get` on any
other key yields `None`. -/
def SCENARIO_STATE_MAP : String → Option AlarmControlPanelState
  | "0" => some AlarmControlPanelState.armed_away
  | "1" => some AlarmControlPanelState.disarmed
  | "2" => some AlarmControlPanelState.armed_home
  | _ => Option.none

/-- The three role fields `_disarm_scenario_id`, `_arm_away_scenario_id`,
`_arm_home_scenario_id` of the entity.  Each holds a `PyValue`;
`PyValue.none` is the initial Python `None` (role unresolved), and is also
what an assignment stores when the matching scenario's `id` key is absent or
null. -/
structure RoleMapping where
  disarm_scenario_id : PyValue
  arm_away_scenario_id : PyValue
  arm_home_scenario_id : PyValue
deriving DecidableEq, Repr

/-- One iteration of the classification loop in
`InimAlarmControlPanel.__init__`: read `scenario.get("id")` and
`scenario.get("name", "").lower()`, then test membership in the three fixed
vocabularies, overwriting the matched role field. -/
def classifyScenario (m : RoleMapping) (s : Scenario) : RoleMapping :=
  let scenario_id := s.id.getD PyValue.none
  let scenario_name := pyLower (s.name.getD "")
  if scenario_name = "arm" ∨ scenario_name = "away" then
    { m with arm_away_scenario_id := scenario_id }
  else if scenario_name = "stay" ∨ scenario_name = "home" ∨ scenario_name = "partial" then
    { m with arm_home_scenario_id := scenario_id }
  else if scenario_name = "disarm" ∨ scenario_name = "off" then
    { m with disarm_scenario_id := scenario_id }
  else m

/-- The whole classification loop of `__init__`: all three role fields start
as `None`, then the device's scenario list is scanned in order. -/
def buildRoleMapping (scenarios : List Scenario) : RoleMapping :=
  scenarios.foldl classifyScenario
    { disarm_scenario_id := PyValue.none
      arm_away_scenario_id := PyValue.none
      arm_home_scenario_id := PyValue.none }

/-- The entity state established by `InimAlarmControlPanel.__init__` that the
modelled operations read: `_device_id`, `_attr_name`, the stored scenario
list `_scenarios`, and the three role fields.  (The remaining attributes set
by `__init__` — unique id, device info, the api/coordinator handles — are
presentation metadata or external handles modelled elsewhere.) -/
structure InimAlarmControlPanel where
  device_id : PyValue
  attr_name : String
  scenarios : List Scenario
  disarm_scenario_id : PyValue
  arm_away_scenario_id : PyValue
  arm_home_scenario_id : PyValue
deriving DecidableEq, Repr

/-- Construction of the entity from a device record, following `__init__`:
`device["id"]` and `device["name"]` are mandatory subscripts (a missing key
raises `KeyError`, modelled as `Option.none`), `device.get("scenarios", [])`
defaults to the empty list, and the role fields come from the classification
loop. -/
def mkInimAlarmControlPanel (device : Device) : Option InimAlarmControlPanel :=
  match device.id, device.name with
  | some did, some dname =>
    let scens := device.scenarios.getD []
    let m := buildRoleMapping scens
    some { device_id := did
           attr_name := dname
           scenarios := scens
           disarm_scenario_id := m.disarm_scenario_id
           arm_away_scenario_id := m.arm_away_scenario_id
           arm_home_scenario_id := m.arm_home_scenario_id }
  | _, _ => Option.none

/-- Truthiness of `self.coordinator.data` (`if not self.coordinator.data:`):
falsy when the snapshot collection is `None` or the empty list. -/
def coordinatorDataTruthy : Option (List Device) → Bool
  | Option.none => false
  | some ds => !ds.isEmpty

/-- Embedding of `_find_device_in_coordinator`: `None` when the snapshot
collection is falsy, otherwise the first device whose `get("id")` equals the
entity's `_device_id`, else `None`. -/
def find_device_in_coordinator (data : Option (List Device)) (device_id : PyValue) :
    Option Device :=
  if coordinatorDataTruthy data then
    (data.getD []).find? (fun d => decide (deviceGetId d = device_id))
  else Option.none

/-- Embedding of the `alarm_state` property: look the device up; a falsy
result (`None`, or the matched record being an empty dict) yields `None`
(unknown state); otherwise stringify `active_scenario` when it is not `None`,
look it up in `SCENARIO_STATE_MAP`, and default to `DISARMED` when the lookup
misses.  The function is total: no code path raises. -/
def alarm_state (e : InimAlarmControlPanel) (data : Option (List Device)) :
    Option AlarmControlPanelState :=
  match find_device_in_coordinator data e.device_id with
  | Option.none => Option.none
  | some device =>
    if !device.truthy then Option.none
    else
      let active_scenario := device.active_scenario.getD PyValue.none
      let scenario_str : Option String :=
        if active_scenario ≠ PyValue.none then some (pyStr active_scenario) else Option.none
      let state := scenario_str.bind SCENARIO_STATE_MAP
      some (state.getD AlarmControlPanelState.disarmed)

/-- Observable events a command handler can produce: log records (at debug or
error level), an `activate_scenario(device_id, scenario_id)` call issued to
the remote API client, and a refresh request issued to the coordinator. -/
inductive Event where
  | logDebug : Event
  | logError : Event
  | activate : PyValue → PyValue → Event
  | refresh : Event
deriving DecidableEq, Repr

/-- Behaviour of the external collaborators during one handler invocation:
whether the API activation call raises, and whether the k-th refresh request
issued during the invocation (counting from 0) raises. -/
structure Env where
  activateRaises : Bool
  refreshRaises : Nat → Bool

/-- Result of one handler invocation: the trace of events in order of
occurrence, and whether an exception propagated out of the handler to the
caller. -/
structure Outcome where
  events : List Event
  raised : Bool
deriving DecidableEq, Repr

/-- Shared body of the three command handlers (they are textually identical
up to the role field and the log strings).  Control flow of the source:

* debug log; if the role's scenario id `is not None`:
  * `try`: debug log; `await api.activate_scenario(...)`;
    `await coordinator.async_refresh()`
  * `except Exception`: error log; `await coordinator.async_refresh()`
    (this second refresh is not guarded: if it raises, the exception
    propagates out of the handler)
* else: error log only.

An `activate`/`refresh` event is recorded when the call is issued, whether or
not that call then raises. -/
def activateScenarioCommand (device_id scenario_id : PyValue) (env : Env) : Outcome :=
  if scenario_id ≠ PyValue.none then
    if env.activateRaises then
      { events := [Event.logDebug, Event.logDebug, Event.activate device_id scenario_id,
                   Event.logError, Event.refresh]
        raised := env.refreshRaises 0 }
    else if env.refreshRaises 0 then
      { events := [Event.logDebug, Event.logDebug, Event.activate device_id scenario_id,
                   Event.refresh, Event.logError, Event.refresh]
        raised := env.refreshRaises 1 }
    else
      { events := [Event.logDebug, Event.logDebug, Event.activate device_id scenario_id,
                   Event.refresh]
        raised := false }
  else
    { events := [Event.logDebug, Event.logError], raised := false }

/-- Embedding of `async_alarm_disarm`.  The second component is the entity
state after the call: the method body assigns no attribute of `self`, so the
entity is returned unchanged. -/
def async_alarm_disarm (e : InimAlarmControlPanel) (env : Env) :
    Outcome × InimAlarmControlPanel :=
  (activateScenarioCommand e.device_id e.disarm_scenario_id env, e)

/-- Embedding of `async_alarm_arm_home`; no attribute of `self` is assigned. -/
def async_alarm_arm_home (e : InimAlarmControlPanel) (env : Env) :
    Outcome × InimAlarmControlPanel :=
  (activateScenarioCommand e.device_id e.arm_home_scenario_id env, e)

/-- Embedding of `async_alarm_arm_away`; no attribute of `self` is assigned. -/
def async_alarm_arm_away (e : InimAlarmControlPanel) (env : Env) :
    Outcome × InimAlarmControlPanel :=
  (activateScenarioCommand e.device_id e.arm_away_scenario_id env, e)

/-- One operation performed on an existing entity after its construction: a
state read (the `alarm_state` property getter, against a possibly different
snapshot collection) or one of the three command handlers. -/
inductive Op where
  | stateRead : Option (List Device) → Op
  | disarm : Env → Op
  | armHome : Env → Op
  | armAway : Env → Op

/-- Entity state after performing one operation.  Each case forwards to the
corresponding embedded method and keeps the entity state it returns; the
`alarm_state` getter assigns no attribute of `self`. -/
def applyOp (e : InimAlarmControlPanel) : Op → InimAlarmControlPanel
  | Op.stateRead data => (fun _ => e) (alarm_state e data)
  | Op.disarm env => (async_alarm_disarm e env).2
  | Op.armHome env => (async_alarm_arm_home e env).2
  | Op.armAway env => (async_alarm_arm_away e env).2

/-- Entity state after a sequence of post-construction operations. -/
def runOps (e : InimAlarmControlPanel) (ops : List Op) : InimAlarmControlPanel :=
  ops.foldl applyOp e

/-- The scenario the classification loop leaves in charge of a vocabulary:
the last scenario of the list whose lower-cased name is in the vocabulary. -/
def lastVocabMatch (vocab : List String) (ss : List Scenario) : Option Scenario :=
  ss.reverse.find? (fun s => decide (pyLower (s.name.getD "") ∈ vocab))

/-- The id the classification loop leaves for a vocabulary: the `get("id")`
of the last matching scenario, or `None` when no scenario matches. -/
def lastVocabId (vocab : List String) (ss : List Scenario) : PyValue :=
  match lastVocabMatch vocab ss with
  | some s => s.id.getD PyValue.none
  | Option.none => PyValue.none

/-- Role mapping written from the spec's words, for comparison with the one
computed by the source's loop: each role holds the id of the *last* scenario
in list order whose lower-cased name is in that role's vocabulary. -/
def roleMappingSpec (ss : List Scenario) : RoleMapping :=
  { disarm_scenario_id := lastVocabId ["disarm", "off"] ss
    arm_away_scenario_id := lastVocabId ["arm", "away"] ss
    arm_home_scenario_id := lastVocabId ["stay", "home", "partial"] ss }

/-- Environment in which no external call raises. -/
def envOk : Env :=
  { activateRaises := false, refreshRaises := fun _ => false }

/-- Environment in which the API activation call and every refresh raise. -/
def envAllRaise : Env :=
  { activateRaises := true, refreshRaises := fun _ => true }

/-- Environment in which the API activation call succeeds but every refresh
request raises. -/
def envRefreshRaise : Env :=
  { activateRaises := false, refreshRaises := fun _ => true }

/-- Scenario `{"id": 7, "name": "Off"}`: matches the disarm vocabulary with a
non-null id. -/
def sOff : Scenario :=
  { id := some (PyValue.int 7), name := some "Off" }

/-- Scenario `{"name": "disarm"}`: matches the disarm vocabulary but its `id`
key is absent, so `scenario.get("id")` is `None`. -/
def sDisarmNoId : Scenario :=
  { id := Option.none, name := some "disarm" }

/-- Scenario `{"id": 0, "name": "Arm"}`. -/
def sArm : Scenario :=
  { id := some (PyValue.int 0), name := some "Arm" }

/-- Scenario `{"id": 5, "name": "Partial"}`. -/
def sPartialHome : Scenario :=
  { id := some (PyValue.int 5), name := some "Partial" }

/-- An entity whose three roles were all resolved at setup. -/
def eResolved : InimAlarmControlPanel :=
  { device_id := PyValue.str "dev1", attr_name := "panel", scenarios := []
    disarm_scenario_id := PyValue.int 7
    arm_away_scenario_id := PyValue.int 0
    arm_home_scenario_id := PyValue.int 5 }

/-- An entity none of whose roles was resolved at setup (all three role
fields still hold `None`). -/
def eUnresolved : InimAlarmControlPanel :=
  { device_id := PyValue.str "dev1", attr_name := "panel", scenarios := []
    disarm_scenario_id := PyValue.none
    arm_away_scenario_id := PyValue.none
    arm_home_scenario_id := PyValue.none }

/-- An entity constructed from a device record whose `"id"` key held `None`. -/
def eNullId : InimAlarmControlPanel :=
  { device_id := PyValue.none, attr_name := "panel", scenarios := []
    disarm_scenario_id := PyValue.none
    arm_away_scenario_id := PyValue.none
    arm_home_scenario_id := PyValue.none }

/-- The empty device dictionary `{}`: every key absent, hence falsy in
Python. -/
def emptyDevice : Device :=
  { id := Option.none, name := Option.none, scenarios := Option.none
    active_scenario := Option.none }

/-- Device record `{"id": "dev1", "name": "d", "active_scenario": 0}`. -/
def devActive0 : Device :=
  { id := some (PyValue.str "dev1"), name := some "d", scenarios := Option.none
    active_scenario := some (PyValue.int 0) }

/-- Device record `{"id": "other", "name": "o"}` whose id differs from
`eResolved`'s. -/
def devOther : Device :=
  { id := some (PyValue.str "other"), name := some "o", scenarios := Option.none
    active_scenario := Option.none }

/-- Device record from which `eResolved`-like construction succeeds:
`{"id": "dev1", "name": "panel", "scenarios": [Off, disarm-without-id, Arm]}`. -/
def devWithScenarios : Device :=
  { id := some (PyValue.str "dev1"), name := some "panel"
    scenarios := some [sOff, sDisarmNoId, sArm]
    active_scenario := some (PyValue.int 1) }

/-- Appending one scenario moves the last-match id to the new scenario when
its lowered name is in the vocabulary and keeps it otherwise. -/
theorem lastVocabId_append (v : List String) (xs : List Scenario) (x : Scenario) :
    lastVocabId v (xs ++ [x]) =
      if pyLower (x.name.getD "") ∈ v then x.id.getD PyValue.none else lastVocabId v xs := by
  by_cases h : pyLower (x.name.getD "") ∈ v
  · simp [lastVocabId, lastVocabMatch, h]
  · simp [lastVocabId, lastVocabMatch, h]

/-- The classification loop of `__init__` computes exactly the spec-side
mapping: each role field holds the `get("id")` of the last scenario in list
order whose lower-cased name lies in that role's vocabulary, and `None` when
no scenario matches. -/
theorem buildRoleMapping_eq_spec (ss : List Scenario) :
    buildRoleMapping ss = roleMappingSpec ss := by
  induction ss using List.reverseRecOn with
  | nil => rfl
  | append_singleton xs x ih =>
    have hb : buildRoleMapping (xs ++ [x]) = classifyScenario (buildRoleMapping xs) x := by
      simp [buildRoleMapping, List.foldl_append]
    rw [hb, ih]
    simp only [classifyScenario, roleMappingSpec, lastVocabId_append, List.mem_cons,
      List.mem_singleton, List.not_mem_nil, or_false]
    by_cases h1 : pyLower (x.name.getD "") = "arm" ∨ pyLower (x.name.getD "") = "away"
    · rcases h1 with h | h <;> simp [h]
    · by_cases h2 : pyLower (x.name.getD "") = "stay" ∨ pyLower (x.name.getD "") = "home" ∨
          pyLower (x.name.getD "") = "partial"
      · rcases h2 with h | h | h <;> simp [h]
      · by_cases h3 : pyLower (x.name.getD "") = "disarm" ∨ pyLower (x.name.getD "") = "off"
        · rcases h3 with h | h <;> simp [h]
        · simp [h1, h2, h3]

/-- Whether a command handler invocation lets an exception escape, as a
function of the role resolution and the collaborators' behaviour: only a
raise of the refresh issued from the `except` block propagates. -/
theorem activateScenarioCommand_raised (did sid : PyValue) (env : Env) :
    (activateScenarioCommand did sid env).raised =
      if sid = PyValue.none then false
      else if env.activateRaises then env.refreshRaises 0
      else if env.refreshRaises 0 then env.refreshRaises 1
      else false := by
  unfold activateScenarioCommand
  by_cases h : sid = PyValue.none
  · simp [h]
  · by_cases ha : env.activateRaises <;> by_cases hr : env.refreshRaises 0 <;>
      simp [h, ha, hr]

/-- Number of refresh requests a command handler invocation issues: none on
the unresolved no-op path, two when the activation succeeded but the refresh
in the `try` block raised (the `except` block refreshes again), one
otherwise. -/
theorem activateScenarioCommand_refresh_count (did sid : PyValue) (env : Env) :
    ((activateScenarioCommand did sid env).events.count Event.refresh) =
      if sid = PyValue.none then 0
      else if !env.activateRaises && env.refreshRaises 0 then 2
      else 1 := by
  unfold activateScenarioCommand
  by_cases h : sid = PyValue.none
  · simp [h]
  · by_cases ha : env.activateRaises <;> by_cases hr : env.refreshRaises 0 <;>
      simp [h, ha, hr, List.count_cons]

/-- Every post-construction operation returns the entity unchanged: neither
the `alarm_state` getter nor any of the three command handlers assigns an
attribute of `self`. -/
theorem applyOp_id (e : InimAlarmControlPanel) (op : Op) : applyOp e op = e := by
  cases op <;> rfl

/-- The fixed literal table yields nothing on keys outside `{"0","1","2"}`. -/
theorem SCENARIO_STATE_MAP_not_mem (s : String)
    (h : s ∉ (["0", "1", "2"] : List String)) :
    SCENARIO_STATE_MAP s = Option.none := by
  unfold SCENARIO_STATE_MAP
  split <;> simp_all

/-- C1 (counterexample): the claim that for every behaviour of the API client
and refresh coordinator no exception propagates out of a command handler is
false.  With a resolved disarm role, an API activation call that raises and a
coordinator whose refresh raises, the refresh issued from the `except` block
raises and that exception propagates out of `async_alarm_disarm` to the host
platform. -/
theorem disarm_error_path_refresh_raise_propagates :
    ((async_alarm_disarm eResolved envAllRaise).1).raised = true := by decide

/-- C1 (amended): for each of the three command handlers, an error from the
API activation call, and an error from the refresh issued in the `try` block,
are absorbed inside the handler; an exception propagates out exactly when the
role is resolved and the refresh issued from the `except` block raises (after
the activation raised, or after the first refresh raised following a
successful activation). -/
theorem command_handler_error_absorption (e : InimAlarmControlPanel) (env : Env) :
    (((async_alarm_disarm e env).1).raised =
      if e.disarm_scenario_id = PyValue.none then false
      else if env.activateRaises then env.refreshRaises 0
      else if env.refreshRaises 0 then env.refreshRaises 1
      else false) ∧
    (((async_alarm_arm_home e env).1).raised =
      if e.arm_home_scenario_id = PyValue.none then false
      else if env.activateRaises then env.refreshRaises 0
      else if env.refreshRaises 0 then env.refreshRaises 1
      else false) ∧
    (((async_alarm_arm_away e env).1).raised =
      if e.arm_away_scenario_id = PyValue.none then false
      else if env.activateRaises then env.refreshRaises 0
      else if env.refreshRaises 0 then env.refreshRaises 1
      else false) :=
  ⟨activateScenarioCommand_raised e.device_id e.disarm_scenario_id env,
   activateScenarioCommand_raised e.device_id e.arm_home_scenario_id env,
   activateScenarioCommand_raised e.device_id e.arm_away_scenario_id env⟩

/-- C2 (counterexample): the claim that the refresh operation is invoked
after every command attempt regardless of role resolution is false.  A
disarm invocation on an entity whose disarm role was never resolved issues
no refresh request at all, even in an environment where no external call
raises. -/
theorem unresolved_disarm_issues_no_refresh :
    Event.refresh ∉ ((async_alarm_disarm eUnresolved envOk).1).events := by decide

/-- C2 (amended): for each of the three command handlers, the coordinator's
refresh operation is invoked after the command attempt whenever the role's
scenario id was resolved at setup; an invocation whose role is unresolved
issues no refresh request. -/
theorem command_refresh_after_resolved_attempt (e : InimAlarmControlPanel) (env : Env) :
    (e.disarm_scenario_id ≠ PyValue.none →
      Event.refresh ∈ ((async_alarm_disarm e env).1).events) ∧
    (e.disarm_scenario_id = PyValue.none →
      Event.refresh ∉ ((async_alarm_disarm e env).1).events) ∧
    (e.arm_home_scenario_id ≠ PyValue.none →
      Event.refresh ∈ ((async_alarm_arm_home e env).1).events) ∧
    (e.arm_home_scenario_id = PyValue.none →
      Event.refresh ∉ ((async_alarm_arm_home e env).1).events) ∧
    (e.arm_away_scenario_id ≠ PyValue.none →
      Event.refresh ∈ ((async_alarm_arm_away e env).1).events) ∧
    (e.arm_away_scenario_id = PyValue.none →
      Event.refresh ∉ ((async_alarm_arm_away e env).1).events) := by
  refine ⟨fun h => ?_, fun h => ?_, fun h => ?_, fun h => ?_, fun h => ?_, fun h => ?_⟩ <;>
    simp only [async_alarm_disarm, async_alarm_arm_home, async_alarm_arm_away,
      activateScenarioCommand] <;>
    by_cases ha : env.activateRaises <;> by_cases hr : env.refreshRaises 0 <;>
    simp [h, ha, hr]

/-- C2 (witness for the amended theorem): a resolved disarm invocation
refreshes and an unresolved one does not, at concrete inputs. -/
theorem command_refresh_after_resolved_attempt_witness :
    Event.refresh ∈ ((async_alarm_disarm eResolved envOk).1).events ∧
    Event.refresh ∉ ((async_alarm_disarm eUnresolved envOk).1).events :=
  ⟨(command_refresh_after_resolved_attempt eResolved envOk).1 (by decide),
   (command_refresh_after_resolved_attempt eUnresolved envOk).2.1 rfl⟩

/-- C3 (counterexample): the claim that a resolved command invocation issues
exactly one refresh request both on API success and on API failure is false.
When the activation call succeeds but the refresh inside the `try` block
raises, the `except` block issues a second refresh: two refresh requests are
issued by one invocation. -/
theorem successful_disarm_failing_refresh_refreshes_twice :
    ((async_alarm_disarm eResolved envRefreshRaise).1).events.count Event.refresh = 2 := by
  decide

/-- C3 (amended): for each of the three command handlers, an invocation whose
role is unresolved issues no refresh request; a resolved invocation issues
exactly one refresh request — both when the activation call succeeds and when
it raises — unless the activation succeeded and that single refresh itself
raised, in which case the `except` block issues a second one (two in total). -/
theorem command_refresh_count (e : InimAlarmControlPanel) (env : Env) :
    (((async_alarm_disarm e env).1).events.count Event.refresh =
      if e.disarm_scenario_id = PyValue.none then 0
      else if !env.activateRaises && env.refreshRaises 0 then 2
      else 1) ∧
    (((async_alarm_arm_home e env).1).events.count Event.refresh =
      if e.arm_home_scenario_id = PyValue.none then 0
      else if !env.activateRaises && env.refreshRaises 0 then 2
      else 1) ∧
    (((async_alarm_arm_away e env).1).events.count Event.refresh =
      if e.arm_away_scenario_id = PyValue.none then 0
      else if !env.activateRaises && env.refreshRaises 0 then 2
      else 1) :=
  ⟨activateScenarioCommand_refresh_count e.device_id e.disarm_scenario_id env,
   activateScenarioCommand_refresh_count e.device_id e.arm_home_scenario_id env,
   activateScenarioCommand_refresh_count e.device_id e.arm_away_scenario_id env⟩

/-- C4 (confirmed): a command handler invocation whose role's scenario id is
unresolved (`None`) never issues an API activation call and never lets an
exception escape; its entire observable behaviour is the two log records
(the entry debug log and the error log), for each of the three handlers and
every behaviour of the collaborators. -/
theorem unresolved_command_is_logged_noop (e : InimAlarmControlPanel) (env : Env) :
    (e.disarm_scenario_id = PyValue.none →
      ((async_alarm_disarm e env).1).events = [Event.logDebug, Event.logError] ∧
      ((async_alarm_disarm e env).1).raised = false ∧
      ∀ d sid, Event.activate d sid ∉ ((async_alarm_disarm e env).1).events) ∧
    (e.arm_home_scenario_id = PyValue.none →
      ((async_alarm_arm_home e env).1).events = [Event.logDebug, Event.logError] ∧
      ((async_alarm_arm_home e env).1).raised = false ∧
      ∀ d sid, Event.activate d sid ∉ ((async_alarm_arm_home e env).1).events) ∧
    (e.arm_away_scenario_id = PyValue.none →
      ((async_alarm_arm_away e env).1).events = [Event.logDebug, Event.logError] ∧
      ((async_alarm_arm_away e env).1).raised = false ∧
      ∀ d sid, Event.activate d sid ∉ ((async_alarm_arm_away e env).1).events) := by
  refine ⟨fun h => ?_, fun h => ?_, fun h => ?_⟩ <;>
    simp [async_alarm_disarm, async_alarm_arm_home, async_alarm_arm_away,
      activateScenarioCommand, h]

/-- C4 (witness): the unresolved-role no-op at a concrete entity and
environment, through the three handlers. -/
theorem unresolved_command_is_logged_noop_witness :
    ((async_alarm_disarm eUnresolved envAllRaise).1).events =
      [Event.logDebug, Event.logError] ∧
    ((async_alarm_arm_home eUnresolved envAllRaise).1).raised = false ∧
    ∀ d sid, Event.activate d sid ∉ ((async_alarm_arm_away eUnresolved envAllRaise).1).events :=
  ⟨((unresolved_command_is_logged_noop eUnresolved envAllRaise).1 rfl).1,
   ((unresolved_command_is_logged_noop eUnresolved envAllRaise).2.1 rfl).2.1,
   ((unresolved_command_is_logged_noop eUnresolved envAllRaise).2.2 rfl).2.2⟩

/-- C5 (counterexample): the claim quantifies over every state read on a
device present in the latest snapshot and demands `DISARMED` for a null
`active_scenario`; but for an entity whose stored device id is `None` and a
snapshot containing the empty device dictionary `{}`, the lookup does find
that device (its `get("id")` is `None`, equal to the entity's id), yet the
`if not device:` truthiness check makes the read return `None` (unknown
state) instead of `DISARMED`. -/
theorem empty_device_record_read_is_unknown :
    find_device_in_coordinator (some [emptyDevice]) eNullId.device_id = some emptyDevice ∧
    alarm_state eNullId (some [emptyDevice]) = Option.none := by decide

/-- C5 (amended): for every state read whose device lookup returns a
non-empty (truthy) device record, the stringified `active_scenario` maps
through the literal table — `"0"` to `ARMED_AWAY`, `"1"` to `DISARMED`,
`"2"` to `ARMED_HOME` — and every other value, including a null
`active_scenario`, yields `DISARMED`.  (When the matched record is the empty
dictionary the read instead yields unknown, per the counterexample.) -/
theorem alarm_state_scenario_table (e : InimAlarmControlPanel)
    (data : Option (List Device)) (device : Device)
    (hfind : find_device_in_coordinator data e.device_id = some device)
    (htruthy : device.truthy = true) :
    (pyStr (device.active_scenario.getD PyValue.none) = "0" →
      alarm_state e data = some AlarmControlPanelState.armed_away) ∧
    (pyStr (device.active_scenario.getD PyValue.none) = "1" →
      alarm_state e data = some AlarmControlPanelState.disarmed) ∧
    (pyStr (device.active_scenario.getD PyValue.none) = "2" →
      alarm_state e data = some AlarmControlPanelState.armed_home) ∧
    (device.active_scenario.getD PyValue.none = PyValue.none ∨
        pyStr (device.active_scenario.getD PyValue.none) ∉ (["0", "1", "2"] : List String) →
      alarm_state e data = some AlarmControlPanelState.disarmed) := by
  have hstate : alarm_state e data =
      some (((if device.active_scenario.getD PyValue.none ≠ PyValue.none then
            some (pyStr (device.active_scenario.getD PyValue.none))
          else Option.none).bind SCENARIO_STATE_MAP).getD
        AlarmControlPanelState.disarmed) := by
    unfold alarm_state
    rw [hfind]
    simp [htruthy]
  refine ⟨fun h => ?_, fun h => ?_, fun h => ?_, fun h => ?_⟩
  · have hne : device.active_scenario.getD PyValue.none ≠ PyValue.none := by
      intro hn; rw [hn] at h; exact absurd h (by decide)
    rw [hstate]; simp [hne, h, SCENARIO_STATE_MAP]
  · have hne : device.active_scenario.getD PyValue.none ≠ PyValue.none := by
      intro hn; rw [hn] at h; exact absurd h (by decide)
    rw [hstate]; simp [hne, h, SCENARIO_STATE_MAP]
  · have hne : device.active_scenario.getD PyValue.none ≠ PyValue.none := by
      intro hn; rw [hn] at h; exact absurd h (by decide)
    rw [hstate]; simp [hne, h, SCENARIO_STATE_MAP]
  · rcases h with h | h
    · rw [hstate]; simp [h]
    · by_cases hn : device.active_scenario.getD PyValue.none = PyValue.none
      · rw [hstate]; simp [hn]
      · rw [hstate]; simp [hn, SCENARIO_STATE_MAP_not_mem _ h]

/-- C5 (witness for the amended theorem): a present, non-empty device whose
`active_scenario` is the integer 0 reads as `ARMED_AWAY`. -/
theorem alarm_state_scenario_table_witness :
    alarm_state eResolved (some [devActive0]) = some AlarmControlPanelState.armed_away :=
  (alarm_state_scenario_table eResolved (some [devActive0]) devActive0
    (by decide) rfl).1 (by decide)

/-- C6 (confirmed): whenever the entity's device id matches no device of the
latest snapshot collection — in particular when the collection is absent
(`None`) or empty — the state read returns `None` (unknown state); the
embedded `alarm_state` is a total function, so no exception is raised on this
path. -/
theorem alarm_state_missing_device_unknown (e : InimAlarmControlPanel)
    (data : Option (List Device))
    (h : ∀ ds, data = some ds → ∀ d, d ∈ ds → deviceGetId d ≠ e.device_id) :
    alarm_state e data = Option.none := by
  have hfind : find_device_in_coordinator data e.device_id = Option.none := by
    cases data with
    | none => rfl
    | some ds =>
      unfold find_device_in_coordinator
      by_cases htr : coordinatorDataTruthy (some ds)
      · simp only [htr, if_true, Option.getD_some]
        refine List.find?_eq_none.mpr (fun d hd => ?_)
        simp only [decide_eq_true_eq]
        exact h ds rfl d hd
      · simp [htr]
  unfold alarm_state
  rw [hfind]

/-- C6 (witness): a snapshot holding only a device with a different id reads
as unknown. -/
theorem alarm_state_missing_device_unknown_witness :
    alarm_state eResolved (some [devOther]) = Option.none :=
  alarm_state_missing_device_unknown eResolved (some [devOther])
    (by intro ds hds d hd
        cases hds
        simp only [List.mem_singleton] at hd
        subst hd
        decide)

/-- C7 (confirmed): the construction loop classifies each scenario by the
exact membership of its lower-cased name in the three fixed vocabularies —
`{"arm","away"}` populates the arm-away role, `{"stay","home","partial"}`
the arm-home role, `{"disarm","off"}` the disarm role — and a scenario whose
lowered name lies outside all three vocabularies leaves the whole mapping
unchanged, wherever it occurs in the list. -/
theorem scenario_classification_vocabulary (ss : List Scenario) (s : Scenario) :
    (pyLower (s.name.getD "") ∈ (["arm", "away"] : List String) →
      buildRoleMapping (ss ++ [s]) =
        { buildRoleMapping ss with arm_away_scenario_id := s.id.getD PyValue.none }) ∧
    (pyLower (s.name.getD "") ∈ (["stay", "home", "partial"] : List String) →
      buildRoleMapping (ss ++ [s]) =
        { buildRoleMapping ss with arm_home_scenario_id := s.id.getD PyValue.none }) ∧
    (pyLower (s.name.getD "") ∈ (["disarm", "off"] : List String) →
      buildRoleMapping (ss ++ [s]) =
        { buildRoleMapping ss with disarm_scenario_id := s.id.getD PyValue.none }) ∧
    (pyLower (s.name.getD "") ∉
        (["arm", "away", "stay", "home", "partial", "disarm", "off"] : List String) →
      buildRoleMapping (ss ++ [s]) = buildRoleMapping ss) := by
  have hb : buildRoleMapping (ss ++ [s]) = classifyScenario (buildRoleMapping ss) s := by
    simp [buildRoleMapping, List.foldl_append]
  rw [hb]
  unfold classifyScenario
  refine ⟨fun h => ?_, fun h => ?_, fun h => ?_, fun h => ?_⟩
  · simp only [List.mem_cons, List.not_mem_nil, or_false] at h
    rcases h with h | h <;> simp [h]
  · simp only [List.mem_cons, List.not_mem_nil, or_false] at h
    rcases h with h | h | h <;> simp [h]
  · simp only [List.mem_cons, List.not_mem_nil, or_false] at h
    rcases h with h | h <;> simp [h]
  · simp only [List.mem_cons, List.not_mem_nil, or_false] at h
    push_neg at h
    obtain ⟨h1, h2, h3, h4, h5, h6, h7⟩ := h
    simp [h1, h2, h3, h4, h5, h6, h7]

/-- C7 (witness): scenario name `"Arm"` (upper case) appended after a
`"Partial"` scenario populates the arm-away role with its id and leaves the
other two roles as they were. -/
theorem scenario_classification_vocabulary_witness :
    buildRoleMapping ([sPartialHome] ++ [sArm]) =
      { buildRoleMapping [sPartialHome] with arm_away_scenario_id := sArm.id.getD PyValue.none } :=
  (scenario_classification_vocabulary [sPartialHome] sArm).1 (by decide)

/-- The entity `__init__` produces from `devWithScenarios`: the `"Off"`
scenario's disarm id 7 is overwritten by the idless `"disarm"` scenario, and
`"Arm"` resolves arm-away to 0. -/
def eConstructed : InimAlarmControlPanel :=
  { device_id := PyValue.str "dev1", attr_name := "panel"
    scenarios := [sOff, sDisarmNoId, sArm]
    disarm_scenario_id := PyValue.none
    arm_away_scenario_id := PyValue.int 0
    arm_home_scenario_id := PyValue.none }

/-- A sample sequence of post-construction operations: a state read against a
changed snapshot, then the three commands under differing collaborator
behaviours. -/
def opsSample : List Op :=
  [Op.stateRead (some [devActive0]), Op.disarm envAllRaise,
   Op.armHome envOk, Op.armAway envRefreshRaise]

/-- C8 (confirmed): after construction each role field of the entity holds
the `get("id")` of the *last* scenario in list iteration order whose
lower-cased name matches that role's vocabulary (each later match overwrote
the earlier mapping), and `None` when no scenario matched. -/
theorem role_mapping_last_match_wins (d : Device) (e : InimAlarmControlPanel)
    (h : mkInimAlarmControlPanel d = some e) :
    e.disarm_scenario_id = lastVocabId ["disarm", "off"] (d.scenarios.getD []) ∧
    e.arm_away_scenario_id = lastVocabId ["arm", "away"] (d.scenarios.getD []) ∧
    e.arm_home_scenario_id = lastVocabId ["stay", "home", "partial"] (d.scenarios.getD []) := by
  obtain ⟨did, dname, dscen, dact⟩ := d
  cases did with
  | none => exact absurd h (by simp [mkInimAlarmControlPanel])
  | some dv =>
    cases dname with
    | none => exact absurd h (by simp [mkInimAlarmControlPanel])
    | some dn =>
      simp only [mkInimAlarmControlPanel, Option.some.injEq] at h
      rw [← h, buildRoleMapping_eq_spec]
      exact ⟨rfl, rfl, rfl⟩

/-- C8 (witness): the duplicate disarm matches of `devWithScenarios` resolve
to the last one in list order for every role field. -/
theorem role_mapping_last_match_wins_witness :
    eConstructed.disarm_scenario_id =
      lastVocabId ["disarm", "off"] (devWithScenarios.scenarios.getD []) ∧
    eConstructed.arm_away_scenario_id =
      lastVocabId ["arm", "away"] (devWithScenarios.scenarios.getD []) ∧
    eConstructed.arm_home_scenario_id =
      lastVocabId ["stay", "home", "partial"] (devWithScenarios.scenarios.getD []) :=
  role_mapping_last_match_wins devWithScenarios eConstructed (by decide)

/-- C9 (confirmed): the role mapping is computed once at construction and no
subsequent operation changes it: any sequence of state reads (against
arbitrary later snapshots) and command invocations (under arbitrary
collaborator behaviour) leaves the entity — in particular its three role
fields — unchanged, and those fields are exactly the classification of the
scenario list the entity was constructed from. -/
theorem role_mapping_frame (d : Device) (e : InimAlarmControlPanel) (ops : List Op)
    (h : mkInimAlarmControlPanel d = some e) :
    runOps e ops = e ∧
    e.disarm_scenario_id = (buildRoleMapping (d.scenarios.getD [])).disarm_scenario_id ∧
    e.arm_home_scenario_id = (buildRoleMapping (d.scenarios.getD [])).arm_home_scenario_id ∧
    e.arm_away_scenario_id = (buildRoleMapping (d.scenarios.getD [])).arm_away_scenario_id := by
  have hrun : ∀ (ops' : List Op) (e' : InimAlarmControlPanel), runOps e' ops' = e' := by
    intro ops'
    induction ops' with
    | nil => intro e'; rfl
    | cons o os ih =>
      intro e'
      show (o :: os).foldl applyOp e' = e'
      rw [List.foldl_cons, applyOp_id]
      exact ih e'
  refine ⟨hrun ops e, ?_⟩
  obtain ⟨did, dname, dscen, dact⟩ := d
  cases did with
  | none => exact absurd h (by simp [mkInimAlarmControlPanel])
  | some dv =>
    cases dname with
    | none => exact absurd h (by simp [mkInimAlarmControlPanel])
    | some dn =>
      simp only [mkInimAlarmControlPanel, Option.some.injEq] at h
      rw [← h]
      exact ⟨rfl, rfl, rfl⟩

/-- C9 (witness): a concrete sequence of reads and commands leaves the
constructed entity and its role fields intact. -/
theorem role_mapping_frame_witness :
    runOps eConstructed opsSample = eConstructed ∧
    eConstructed.disarm_scenario_id =
      (buildRoleMapping (devWithScenarios.scenarios.getD [])).disarm_scenario_id ∧
    eConstructed.arm_home_scenario_id =
      (buildRoleMapping (devWithScenarios.scenarios.getD [])).arm_home_scenario_id ∧
    eConstructed.arm_away_scenario_id =
      (buildRoleMapping (devWithScenarios.scenarios.getD [])).arm_away_scenario_id :=
  role_mapping_frame devWithScenarios eConstructed opsSample (by decide)

/-- C10 (confirmed): when the last scenario matching a role's vocabulary has
a missing or null `"id"` — even if an earlier scenario matched the same role
with a non-null id — that role's field ends up `None`, and the corresponding
command handler is a no-op that never issues an API activation call,
stated here for the disarm role the claim's sources point at. -/
theorem null_id_last_match_disables_disarm (ss : List Scenario) (s : Scenario)
    (e : InimAlarmControlPanel) (env : Env)
    (hlast : lastVocabMatch ["disarm", "off"] ss = some s)
    (hid : s.id.getD PyValue.none = PyValue.none)
    (he : e.disarm_scenario_id = (buildRoleMapping ss).disarm_scenario_id) :
    e.disarm_scenario_id = PyValue.none ∧
    ∀ d sid, Event.activate d sid ∉ ((async_alarm_disarm e env).1).events := by
  have h1 : (buildRoleMapping ss).disarm_scenario_id = PyValue.none := by
    rw [buildRoleMapping_eq_spec]
    simp [roleMappingSpec, lastVocabId, hlast, hid]
  have h2 : e.disarm_scenario_id = PyValue.none := he.trans h1
  refine ⟨h2, fun d sid => ?_⟩
  simp [async_alarm_disarm, activateScenarioCommand, h2]

/-- C10 (witness): with scenarios `[Off (id 7), disarm (no id)]` the earlier
non-null disarm id is overwritten by the idless last match, and the disarm
command issues no API call. -/
theorem null_id_last_match_disables_disarm_witness :
    eUnresolved.disarm_scenario_id = PyValue.none ∧
    ∀ d sid, Event.activate d sid ∉ ((async_alarm_disarm eUnresolved envOk).1).events :=
  null_id_last_match_disables_disarm [sOff, sDisarmNoId] sDisarmNoId
    eUnresolved envOk (by decide) rfl (by decide)

end InimCloud
